import Mathlib

/-!
Verification of the sos-python language adapter (src/sos_python/kernel.py).

The adapter mediates between a polyglot notebook orchestrator and an embedded
Python interpreter.  Its operations format code strings, send them through an
execution bridge, and parse serialized (pickled) results back.  We embed:

* the universe of plain Python data values exchanged by the adapter
  (`PyValue`: None, str, int, bool, list, dict);
* the in-interpreter helper routines injected by `__init_statement__`
  (`__short_repr`, `__preview_var`, `__repr_var`, `__loaded_modules__`,
  `__version_info__`);
* the adapter operations `get_vars`, `load_pickled`, `put_vars`, `expand`,
  `preview`, `sessioninfo`.

The execution bridge (`sos_kernel.get_response` / `run_cell`) is an external
collaborator; each operation takes its outcome as an explicit argument:
`Option.none` models the bridge raising or producing no matching output.
Python exceptions that escape a function are modelled with `Except.error`;
a function whose body catches all exceptions gets an exception-free result
type, which is how "never raises" is expressed.
-/

namespace SosPython

/-- The universe of plain Python data values handled by the adapter's
serialization round trips (spec section 3: str/int/float/bool/list/dict;
floats are omitted from the embedding, no claim quantifies over them). -/
inductive PyValue where
  | none : PyValue
  | str (s : String) : PyValue
  | int (n : Int) : PyValue
  | bool (b : Bool) : PyValue
  | list (xs : List PyValue) : PyValue
  | dict (es : List (PyValue × PyValue)) : PyValue

/-- Python escaping of one character inside a quoted string literal, as
produced by repr: backslash, newline, carriage return, tab and the active
quote character are escaped; other characters pass through. -/
def pyEscapeChar (quote : Char) (c : Char) : String :=
  if c == Char.ofNat 92 then "\\\\"
  else if c == Char.ofNat 10 then "\\n"
  else if c == Char.ofNat 13 then "\\r"
  else if c == Char.ofNat 9 then "\\t"
  else if c == quote then "\\" ++ String.singleton c
  else String.singleton c

/-- Python repr of a string: single-quoted, unless the string contains a
single quote and no double quote, in which case it is double-quoted
(escapes for non-printing characters beyond newline/tab/CR are omitted). -/
def pyReprStr (s : String) : String :=
  if s.toList.contains (Char.ofNat 39) && !(s.toList.contains (Char.ofNat 34)) then
    "\"" ++ String.join (s.toList.map (pyEscapeChar (Char.ofNat 34))) ++ "\""
  else
    "\x27" ++ String.join (s.toList.map (pyEscapeChar (Char.ofNat 39))) ++ "\x27"

mutual

/-- Python repr of a `PyValue` (used by `__short_repr` for scalars and for
single-entry dict keys, and by `__repr_var`). -/
def pyRepr : PyValue → String
  | .none => "None"
  | .str s => pyReprStr s
  | .int n => toString n
  | .bool b => if b then "True" else "False"
  | .list xs => "[" ++ pyReprSeq xs ++ "]"
  | .dict es => "\x7b" ++ pyReprDict es ++ "\x7d"

/-- repr of list elements, comma separated. -/
def pyReprSeq : List PyValue → String
  | [] => ""
  | [x] => pyRepr x
  | x :: y :: rest => pyRepr x ++ ", " ++ pyReprSeq (y :: rest)

/-- repr of dict entries, comma separated. -/
def pyReprDict : List (PyValue × PyValue) → String
  | [] => ""
  | [(k, v)] => pyRepr k ++ ": " ++ pyRepr v
  | (k, v) :: e :: rest => pyRepr k ++ ": " ++ pyRepr v ++ ", " ++ pyReprDict (e :: rest)

end

/-- `.replace('\n', '\\n')` — escape each newline in a slice of a long
string (the pattern is a single character, so replacement is per-char). -/
def escNl (s : String) : String :=
  String.join (s.toList.map (fun c =>
    if c == Char.ofNat 10 then "\\n" else String.singleton c))

/-- Python slice `s[:n]` (by characters). -/
def pySliceTo (s : String) (n : Nat) : String := String.mk (s.toList.take n)

/-- Python slice `s[-n:]` (by characters; for `n` at least the length this is
the whole string, matching Python, thanks to truncated Nat subtraction). -/
def pySliceLast (s : String) (n : Nat) : String :=
  String.mk (s.toList.drop (s.toList.length - n))

/-- The string branches of `__short_repr` (kernel.py lines 48-52): a string
longer than 80 characters is truncated to its first 60 and last 20
characters with newlines escaped and an ellipsis between; a short string
is shown as its repr.  Split out because the single-entry dict branch
re-enters `__short_repr` on `repr(first_key)`, which is a string. -/
def shortReprStr (s : String) : String :=
  if s.length > 80 then
    escNl (pySliceTo s 60) ++ "..." ++ escNl (pySliceLast s 20)
  else pyReprStr s

mutual

/-- `__short_repr` from `__init_statement__` (kernel.py lines 45-85),
restricted to the embedded value universe.  The branches for objects with a
`__short_repr__` attribute, for KeysView, and the final str/repr fallback
concern types outside this universe (no `PyValue` constructor has the
attribute, is a KeysView, or escapes the earlier isinstance checks), so they
do not appear. -/
def __short_repr : PyValue → String
  | .none => "None"
  | .str s => shortReprStr s
  | .int n => toString n
  | .bool b => if b then "True" else "False"
  | .list xs => shortReprSeq xs
  | .dict es => shortReprDict es

/-- The Sequence branch of `__short_repr` (kernel.py lines 55-63):
empty, one-element, two-element, and truncated many-element forms. -/
def shortReprSeq : List PyValue → String
  | [] => "[]"
  | [x] => __short_repr x
  | [x, y] => __short_repr x ++ ", " ++ __short_repr y
  | x :: y :: _ :: rest =>
      __short_repr x ++ ", " ++ __short_repr y ++ ", ... (" ++ toString (rest.length + 3) ++ " items)"

/-- The dict branch of `__short_repr` (kernel.py lines 64-72).  Note the
single-entry case passes `repr(first_key)` (a string) back through
`__short_repr`, while the many-entry case passes the key itself. -/
def shortReprDict : List (PyValue × PyValue) → String
  | [] => ""
  | [(k, v)] => shortReprStr (pyRepr k) ++ ":" ++ __short_repr v
  | (k, v) :: _ :: rest =>
      __short_repr k ++ ":" ++ __short_repr v ++ ", ... (" ++ toString (rest.length + 2) ++ " items)"

end

/-! ## Transport and serialization model -/

/-- A mapping from variable names to values, as produced by unpickling an
exchange payload. -/
abbrev VarMap := List (String × PyValue)

/-- The object handed to `load_pickled` (the result of eval-ing the
text/plain of an execute_result): Python bytes, a str (string-encoded
bytes), or a value of any other type.  `Option.none` as content models
bytes/str that `pickle.loads` rejects by raising. -/
inductive PickleData (α : Type) where
  | bytes (content : Option α)
  | str (content : Option α)
  | other

/-- Outcome of `load_pickled` (kernel.py lines 160-169): the unpickled
value, or the empty dict returned (after a warning) for a payload that is
neither bytes nor str, or an exception escaping from `pickle.loads`. -/
inductive LoadPickledResult (α : Type) where
  | val (a : α)
  | emptyDict
  | raised (msg : String)

/-- `sos_Python.load_pickled`: bytes are unpickled directly, a str is
utf-8-encoded then unpickled, anything else produces a warning and the
empty dict (without raising). -/
def load_pickled {α : Type} (item : PickleData α) : LoadPickledResult α :=
  match item with
  | .bytes (Option.some a) => .val a
  | .bytes Option.none => .raised "unpickling error"
  | .str (Option.some a) => .val a
  | .str Option.none => .raised "unpickling error"
  | .other => .emptyDict

/-- Outcome of one `get_response(stmt, ['execute_result'])` round trip,
together with the local `eval` of the response text: `Option.none` means the
bridge raised or produced no execute_result; `some (tp, ed)` is an
execute_result whose text/plain field is `tp`, where `ed = Option.none`
means the local `eval tp` raises and `ed = some d` means it yields `d`. -/
abbrev BridgeResponse (α : Type) := Option (String × Option (PickleData α))

/-! ## put_vars -/

/-- What `put_vars` hands back to the orchestrator: either a native mapping
(cross-flavor path, possibly empty after a swallowed failure) or a code
string to be executed in the destination kernel (same-flavor path). -/
inductive PutVarsResult where
  | vars (m : VarMap)
  | code (stmt : String)

/-- The same-flavor test of kernel.py lines 182-183: source python3 going to
the Python3 kernel, or source python2 going to the Python2 kernel. -/
def sameFlavor (kernel_name : String) (to_kernel : Option String) : Bool :=
  (kernel_name == "python3" && to_kernel == Option.some "Python3") ||
  (kernel_name == "python2" && to_kernel == Option.some "Python2")

/-- The statement `put_vars` sends (kernel.py lines 172-173): collect the
requested items plus every sos-prefixed local into `__vars__` and pickle
it. -/
def put_vars_stmt (items : List String) : String :=
  "__vars__=\x7b " ++
    String.intercalate "," (items.map (fun x => "\"" ++ x ++ "\":" ++ x)) ++
    " \x7d\n__vars__.update(\x7bx:y for x,y in locals().items() if x.startswith(\"sos\")\x7d)\npickle.dumps(__vars__)"

/-- `sos_Python.put_vars` (kernel.py lines 171-195).  The first try/except
(transport) maps any failure to the empty mapping; the same-flavor check
then short-circuits with a remote merge instruction built from the raw
text/plain; otherwise the payload is eval-ed and unpickled locally, with
every exception swallowed into the empty mapping after a warning. -/
def put_vars (kernel_name : String) (items : List String) (to_kernel : Option String)
    (resp : BridgeResponse VarMap) : PutVarsResult :=
  match resp with
  | Option.none => .vars []
  | Option.some (tp, ed) =>
    if sameFlavor kernel_name to_kernel then
      .code ("import pickle;globals().update(pickle.loads(" ++ tp ++ "))")
    else
      match ed with
      | Option.none => .vars []
      | Option.some d =>
        match load_pickled d with
        | .val m => .vars m
        | .emptyDict => .vars []
        | .raised _ => .vars []

/-! ## expand -/

/-- `sos_Python.expand` (kernel.py lines 197-211).  `replace_sigil_fn`
stands for `sos.parser.replace_sigil(·, sigil)`, applied only when the
sigil is not the default; `fstring_eval` is the remote evaluation of the
text as an f-string composed with the local eval of the result
(`Option.none` when any step of the try block raises).  On failure the
error message is re-fetched, warned, and the current `text` — after any
sigil replacement — is returned. -/
def expand (replace_sigil_fn : String → String) (sigil : String) (text : String)
    (fstring_eval : String → Option String) : String :=
  let t := if sigil != "\x7b \x7d" then replace_sigil_fn text else text
  match fstring_eval t with
  | Option.some v => v
  | Option.none => t

/-- Replace each occurrence of the two-character opener dollar-brace by a
plain opening brace, scanning left to right. -/
def replaceDollarBrace : List Char → List Char
  | [] => []
  | [c] => [c]
  | c1 :: c2 :: rest =>
      if c1 == Char.ofNat 36 && c2 == Char.ofNat 123 then
        Char.ofNat 123 :: replaceDollarBrace rest
      else
        c1 :: replaceDollarBrace (c2 :: rest)

/-- Modelled from the spec: `replace_sigil` from sos.parser is an external
collaborator (not part of this repository); per the spec it rewrites
template text from an alternate delimiter convention to the default brace
convention.  For the sigil "${ }" each placeholder opener "${" becomes
"{". -/
def replace_sigil_dollar (text : String) : String :=
  String.mk (replaceDollarBrace text.toList)

/-! ## preview -/

/-- `type(obj).__name__` on the embedded value universe. -/
def typeName : PyValue → String
  | .none => "NoneType"
  | .str _ => "str"
  | .int _ => "int"
  | .bool _ => "bool"
  | .list _ => "list"
  | .dict _ => "dict"

/-- The `isinstance(obj, Sized)` / `obj.__len__()` step of `__preview_var`
(kernel.py lines 101-102): str, list and dict are Sized; None, int and bool
are not.  No embedded value has a `shape` attribute, so the shape branch
(lines 99-100) is never taken on this universe. -/
def pyLen : PyValue → Option Nat
  | .str s => Option.some s.length
  | .list xs => Option.some xs.length
  | .dict es => Option.some es.length
  | _ => Option.none

/-- `__preview_var` from `__init_statement__` (kernel.py lines 88-118),
restricted to the embedded universe: no embedded value is a module, is
callable, or has `to_html`, so those branches (lines 103-116) drop out and
a present variable yields its type label (with length when Sized) paired
with its short representation.  The globals dict is a key/value list;
`item not in globals()` is the lookup failing.  `evalFn` models the
interpreter's `eval`; `Option.none` means `eval item` raises, which makes
the remote execution fail (no result).  The absent-variable branch returns
before `eval` is reached. -/
def __preview_var (g : List (String × PyValue)) (evalFn : String → Option PyValue)
    (item : String) : Option (String × String) :=
  if (g.lookup item).isNone then
    Option.some ("", "Unknown variable " ++ item)
  else
    match evalFn item with
    | Option.none => Option.none
    | Option.some obj =>
        Option.some
          (typeName obj ++
            (match pyLen obj with
             | Option.some n => " of length " ++ toString n
             | Option.none => ""),
           __short_repr obj)

/-- What `sos_Python.preview` (kernel.py lines 213-221) returns: the
unpickled (label, representation) pair, or the empty dict that
`load_pickled` substitutes for a malformed payload, or the degraded
("", "No preview is available ...") pair from the except branch. -/
inductive PreviewResult where
  | pair (txt : String) (rep : String)
  | emptyDict

/-- `sos_Python.preview`: the whole body is inside try/except, so every
failure (transport, eval, unpickling) becomes the degraded pair carrying
the exception text `e`; nothing escapes to the caller. -/
def preview (resp : BridgeResponse (String × String)) (e : String) : PreviewResult :=
  match resp with
  | Option.none => .pair "" ("No preview is available " ++ e)
  | Option.some (_, Option.none) => .pair "" ("No preview is available " ++ e)
  | Option.some (_, Option.some d) =>
    match load_pickled d with
    | .val p => .pair p.1 p.2
    | .emptyDict => .emptyDict
    | .raised _ => .pair "" ("No preview is available " ++ e)

/-! ## repr_var -/

/-- `__repr_var` from `__init_statement__` (kernel.py lines 120-123): a name
absent from globals raises ValueError; a present name — a key of globals,
hence an identifier whose `eval` is the namespace lookup — yields the repr
of its value. -/
def __repr_var (g : List (String × PyValue)) (item : String) : Except String String :=
  match g.lookup item with
  | Option.none => Except.error ("Undefined variable " ++ item)
  | Option.some v => Except.ok (pyRepr v)

/-! ## get_vars -/

/-- One remote execution issued by `get_vars` for one variable name: the
statement `globals().update(pickle.loads(<payload>))` where the payload
pickles the single-entry mapping for that name from the orchestrator's
store — with protocol 2 and fix_imports when the target is not python3 —
plus the on_error message handed to `run_cell`. -/
structure ExportStmt where
  name : String
  payload : VarMap
  protocol2 : Bool
  on_error : String

/-- `sos_Python.get_vars` (kernel.py lines 143-158) as the sequence of
remote executions it issues, in loop order.  `sos_dict` is the
orchestrator's shared variable store (`env.sos_dict`); `run_cell_ok` is the
per-statement outcome of `run_cell`, which reports failures itself via its
on_error warning — the loop never consults it, so the issued sequence
cannot depend on it. -/
def get_vars (kernel_name : String) (names : List String) (sos_dict : String → PyValue)
    (run_cell_ok : String → Bool) : List ExportStmt :=
  match names with
  | [] => []
  | n :: rest =>
      { name := n
        payload := [(n, sos_dict n)]
        protocol2 := kernel_name != "python3"
        on_error := "Failed to get variable " ++ n ++ " from SoS to " ++ kernel_name } ::
      get_vars kernel_name rest sos_dict run_cell_ok

/-! ## sessioninfo -/

/-- `__version_info__` from `__init_statement__` (kernel.py lines 20-33):
first try `module.__version__` via dynamic execution (`module_version`,
`Option.none` when that raises), then fall back to the pkg_resources
metadata lookup (`pkg_version`), and finally to the sentinel "na". -/
def __version_info__ (module_version : String → Option String)
    (pkg_version : String → Option String) (module : String) : String :=
  match module_version module with
  | Option.some v => v
  | Option.none =>
    match pkg_version module with
    | Option.some v => v
    | Option.none => "na"

/-- A binding in the target interpreter's global namespace as seen by
`__loaded_modules__`: a module (with its `__name__`) or any other value. -/
inductive GlobalEntry where
  | module (name : String)
  | plain (v : PyValue)

/-- `__loaded_modules__` from `__init_statement__` (kernel.py lines 36-42):
collect `value.__name__` for every module bound in globals, pair it with
its `__version_info__`, and drop the pairs whose version is "na". -/
def __loaded_modules__ (g : List (String × GlobalEntry))
    (module_version pkg_version : String → Option String) : List (String × String) :=
  ((g.filterMap (fun p =>
      match p.2 with
      | .module n => Option.some n
      | .plain _ => Option.none)).map
    (fun n => (n, __version_info__ module_version pkg_version n))).filter
    (fun p => p.2 != "na")

/-- The list computed inside the interpreter by the statement `sessioninfo`
sends (kernel.py line 225): `res=[("Version", sys.version)]` extended with
`__loaded_modules__()`. -/
def sessioninfo_list (version : String) (g : List (String × GlobalEntry))
    (module_version pkg_version : String → Option String) : List (String × String) :=
  ("Version", version) :: __loaded_modules__ g module_version pkg_version

/-- What `sessioninfo` yields on success: the unpickled entry list, or the
empty dict `load_pickled` substitutes for a malformed payload. -/
inductive SessionInfoResult where
  | info (entries : List (String × String))
  | emptyDict

/-- `sos_Python.sessioninfo` (kernel.py lines 223-227).  Unlike every other
operation, its body has no try/except: a bridge failure, a failing local
eval of the response text, or `pickle.loads` raising inside `load_pickled`
all escape to the caller (`Except.error`); only the neither-bytes-nor-str
payload case is absorbed by `load_pickled` itself into the empty dict. -/
def sessioninfo (resp : BridgeResponse (List (String × String))) :
    Except String SessionInfoResult :=
  match resp with
  | Option.none => Except.error "transport failure"
  | Option.some (_, Option.none) => Except.error "eval failure"
  | Option.some (_, Option.some d) =>
    match load_pickled d with
    | .val l => Except.ok (.info l)
    | .emptyDict => Except.ok .emptyDict
    | .raised m => Except.error m

/-! ## Theorems -/

/-- C6: for every string s with more than 80 characters, the short
representation of s is the first 60 characters of s, with each newline
replaced by an escaped newline, followed by "...", followed by the last 20
characters of s, with newlines likewise escaped. -/
theorem short_repr_long_string (s : String) (h : s.length > 80) :
    __short_repr (.str s) =
      escNl (String.mk (s.toList.take 60)) ++ "..." ++
        escNl (String.mk (s.toList.drop (s.toList.length - 20))) := by
  simp [__short_repr, shortReprStr, pySliceTo, pySliceLast, h]

/-- A concrete 81-character string (containing one newline) for the C6
witness. -/
def c6_input : String :=
  String.mk (List.replicate 40 (Char.ofNat 97) ++
    Char.ofNat 10 :: List.replicate 40 (Char.ofNat 98))

/-- Witness for C6 at an 81-character input. -/
theorem short_repr_long_string_witness :
    c6_input.length > 80 ∧
      __short_repr (.str c6_input) =
        escNl (String.mk (c6_input.toList.take 60)) ++ "..." ++
          escNl (String.mk (c6_input.toList.drop (c6_input.toList.length - 20))) :=
  ⟨by decide, short_repr_long_string c6_input (by decide)⟩

/-- C7: the short representation of the 100-element list of the integers 0
through 99 contains the substrings "100", "0" and "1", and does not contain
the substring "99". -/
theorem short_repr_hundred_list :
    ("100".toList <:+: (__short_repr (.list ((List.range 100).map fun n => .int n))).toList) ∧
    ("0".toList <:+: (__short_repr (.list ((List.range 100).map fun n => .int n))).toList) ∧
    ("1".toList <:+: (__short_repr (.list ((List.range 100).map fun n => .int n))).toList) ∧
    ¬ ("99".toList <:+: (__short_repr (.list ((List.range 100).map fun n => .int n))).toList) := by
  decide

/-- C9: __repr_var raises ValueError "Undefined variable <item>" for every
item absent from the interpreter's global namespace, and for every present
item returns the repr of the value bound to it. -/
theorem repr_var_error_or_repr (g : List (String × PyValue)) (item : String) :
    (g.lookup item = Option.none →
      __repr_var g item = Except.error ("Undefined variable " ++ item)) ∧
    (∀ v, g.lookup item = Option.some v →
      __repr_var g item = Except.ok (pyRepr v)) := by
  constructor
  · intro h
    simp [__repr_var, h]
  · intro v h
    simp [__repr_var, h]

/-- Witness for C9: an absent name raises, a present one returns the
repr of its value. -/
theorem repr_var_error_or_repr_witness :
    __repr_var [("x", PyValue.int 5)] "y" = Except.error ("Undefined variable " ++ "y") ∧
    __repr_var [("x", PyValue.int 5)] "x" = Except.ok (pyRepr (PyValue.int 5)) :=
  ⟨(repr_var_error_or_repr [("x", PyValue.int 5)] "y").1 rfl,
   (repr_var_error_or_repr [("x", PyValue.int 5)] "x").2 (PyValue.int 5) rfl⟩

/-- C10: get_vars issues exactly one remote execution per name, in the
order the names are given, the issued sequence does not depend on the
per-name run_cell outcomes (a reported failure does not stop the loop),
and the empty sequence of names issues no execution. -/
theorem get_vars_one_execution_per_name (kernel_name : String) (names : List String)
    (sos_dict : String → PyValue) (ok ok2 : String → Bool) :
    get_vars kernel_name names sos_dict ok =
      names.map (fun n =>
        { name := n
          payload := [(n, sos_dict n)]
          protocol2 := kernel_name != "python3"
          on_error := "Failed to get variable " ++ n ++ " from SoS to " ++ kernel_name }) ∧
    (get_vars kernel_name names sos_dict ok).length = names.length ∧
    get_vars kernel_name names sos_dict ok = get_vars kernel_name names sos_dict ok2 ∧
    get_vars kernel_name [] sos_dict ok = [] := by
  have hmap : ∀ (f : String → Bool) (ns : List String),
      get_vars kernel_name ns sos_dict f =
        ns.map (fun n =>
          { name := n
            payload := [(n, sos_dict n)]
            protocol2 := kernel_name != "python3"
            on_error := "Failed to get variable " ++ n ++ " from SoS to " ++ kernel_name }) := by
    intro f ns
    induction ns with
    | nil => rfl
    | cons n rest ih => simp [get_vars, ih]
  refine ⟨hmap ok names, ?_, ?_, hmap ok []⟩
  · rw [hmap ok names, List.length_map]
  · rw [hmap ok names, hmap ok2 names]

/-- C1: put_vars returns the empty mapping, without raising, both on a
transport failure (no execute_result, or an exception while requesting it)
and on a cross-flavor deserialization failure (the local eval of the
response raising, or pickle.loads raising). -/
theorem put_vars_failure_empty (kernel_name : String) (items : List String)
    (to_kernel : Option String) (resp : BridgeResponse VarMap) :
    (resp = Option.none → put_vars kernel_name items to_kernel resp = .vars []) ∧
    (∀ tp ed, resp = Option.some (tp, ed) →
      sameFlavor kernel_name to_kernel = false →
      (ed = Option.none ∨
        ∃ d msg, ed = Option.some d ∧ load_pickled d = .raised msg) →
      put_vars kernel_name items to_kernel resp = .vars []) := by
  constructor
  · intro h
    subst h
    rfl
  · intro tp ed hresp hsf hfail
    subst hresp
    rcases hfail with h | ⟨d, msg, hd, hl⟩
    · subst h
      simp [put_vars, hsf]
    · subst hd
      simp [put_vars, hsf, hl]

/-- Witness for C1: transport failure and corrupt-payload failure both
yield the empty mapping. -/
theorem put_vars_failure_empty_witness :
    put_vars "python3" ["a"] (Option.some "R") Option.none = .vars [] ∧
    put_vars "python3" ["a"] (Option.some "R")
        (Option.some ("PAYLOAD", Option.some (PickleData.bytes Option.none))) = .vars [] :=
  ⟨(put_vars_failure_empty "python3" ["a"] (Option.some "R") Option.none).1 rfl,
   (put_vars_failure_empty "python3" ["a"] (Option.some "R")
        (Option.some ("PAYLOAD", Option.some (PickleData.bytes Option.none)))).2
      "PAYLOAD" (Option.some (PickleData.bytes Option.none)) rfl rfl
      (Or.inr ⟨PickleData.bytes Option.none, "unpickling error", rfl, rfl⟩)⟩

/-- C2: when source and destination are the same interpreter dialect and
the bridge produced a response, put_vars returns the remote merge
instruction built from the raw text/plain — for every possible local
deserialization outcome, so the result never depends on a local
deserialization pass. -/
theorem put_vars_same_flavor_code (kernel_name : String) (items : List String)
    (to_kernel : Option String) (tp : String) (ed ed2 : Option (PickleData VarMap))
    (h : sameFlavor kernel_name to_kernel = true) :
    put_vars kernel_name items to_kernel (Option.some (tp, ed)) =
      .code ("import pickle;globals().update(pickle.loads(" ++ tp ++ "))") ∧
    put_vars kernel_name items to_kernel (Option.some (tp, ed)) =
      put_vars kernel_name items to_kernel (Option.some (tp, ed2)) := by
  constructor <;> simp [put_vars, h]

/-- Witness for C2: a python3 source sending to the Python3 kernel emits
the merge instruction whatever the payload holds. -/
theorem put_vars_same_flavor_code_witness :
    put_vars "python3" ["a"] (Option.some "Python3")
        (Option.some ("PAYLOAD", Option.none)) =
      .code ("import pickle;globals().update(pickle.loads(" ++ "PAYLOAD" ++ "))") ∧
    put_vars "python3" ["a"] (Option.some "Python3")
        (Option.some ("PAYLOAD", Option.none)) =
      put_vars "python3" ["a"] (Option.some "Python3")
        (Option.some ("PAYLOAD", Option.some PickleData.other)) :=
  put_vars_same_flavor_code "python3" ["a"] (Option.some "Python3") "PAYLOAD"
    Option.none (Option.some PickleData.other) rfl

/-- C5: for every item string that is not a key of the target global
namespace — including non-identifier strings such as an indexing
expression — __preview_var returns ("", "Unknown variable <item>") for
every eval function (so the item is never evaluated), and never raises. -/
theorem preview_var_unknown (g : List (String × PyValue))
    (e1 e2 : String → Option PyValue) (item : String)
    (h : g.lookup item = Option.none) :
    __preview_var g e1 item = Option.some ("", "Unknown variable " ++ item) ∧
    __preview_var g e1 item = __preview_var g e2 item := by
  constructor <;> simp [__preview_var, h]

/-- Witness for C5 at the indexing expression of the spec: with only "var"
bound, previewing the item string made of "var" and an index returns the
Unknown-variable pair even for an eval function that would raise. -/
theorem preview_var_unknown_witness :
    __preview_var [("var", PyValue.list [PyValue.int 0, PyValue.int 1])]
        (fun _ => Option.none) "var[1]" =
      Option.some ("", "Unknown variable " ++ "var[1]") ∧
    __preview_var [("var", PyValue.list [PyValue.int 0, PyValue.int 1])]
        (fun _ => Option.none) "var[1]" =
      __preview_var [("var", PyValue.list [PyValue.int 0, PyValue.int 1])]
        (fun _ => Option.some PyValue.none) "var[1]" :=
  preview_var_unknown [("var", PyValue.list [PyValue.int 0, PyValue.int 1])]
    (fun _ => Option.none) (fun _ => Option.some PyValue.none) "var[1]" rfl

/-- C8: for every interpreter state, the session info list starts with the
("Version", <interpreter version>) entry, and no entry after it carries the
failed-lookup sentinel "na" — modules whose version lookup failed are
dropped. -/
theorem sessioninfo_list_version_no_na (version : String)
    (g : List (String × GlobalEntry)) (mv pv : String → Option String) :
    (sessioninfo_list version g mv pv).head? = Option.some ("Version", version) ∧
    ∀ p ∈ (sessioninfo_list version g mv pv).tail, p.2 ≠ "na" := by
  constructor
  · rfl
  · intro p hp
    simp only [sessioninfo_list, List.tail_cons, __loaded_modules__,
      List.mem_filter, bne_iff_ne, ne_eq] at hp
    exact hp.2

/-- C3 counterexample: with the non-default sigil dollar-brace-space-brace
and a failing evaluation, expand returns the sigil-rewritten text, which
differs from the original template text that was passed in. -/
theorem expand_failure_counterexample :
    expand replace_sigil_dollar "$\x7b \x7d" "$\x7bvar\x7d" (fun _ => Option.none) =
      "\x7bvar\x7d" ∧
    ("\x7bvar\x7d" : String) ≠ "$\x7bvar\x7d" := by
  constructor
  · decide
  · decide

/-- C3 amended: if the in-interpreter evaluation of the formatted string
fails, expand returns the template text after sigil normalization — equal
to the original passed-in text exactly when the sigil is the default
brace-space-brace, and otherwise the image of the original text under the
sigil replacement. -/
theorem expand_failure_returns_text (rs : String → String) (sigil text : String)
    (ev : String → Option String)
    (h : ev (if sigil != "\x7b \x7d" then rs text else text) = Option.none) :
    expand rs sigil text ev = (if sigil != "\x7b \x7d" then rs text else text) := by
  simp only [expand, h]

/-- Witness for C3 amended: default sigil on a failing evaluation returns
the text unchanged; the dollar sigil returns the rewritten text. -/
theorem expand_failure_returns_text_witness :
    expand (fun s => s) "\x7b \x7d" "abc" (fun _ => Option.none) = "abc" ∧
    expand replace_sigil_dollar "$\x7b \x7d" "$\x7bvar\x7d" (fun _ => Option.none) =
      replace_sigil_dollar "$\x7bvar\x7d" :=
  ⟨expand_failure_returns_text (fun s => s) "\x7b \x7d" "abc" (fun _ => Option.none) rfl,
   expand_failure_returns_text replace_sigil_dollar "$\x7b \x7d" "$\x7bvar\x7d"
     (fun _ => Option.none) rfl⟩

/-- C4 counterexample: sessioninfo on a transport failure propagates the
exception to its caller instead of returning a degraded result. -/
theorem sessioninfo_propagates_counterexample :
    sessioninfo Option.none = Except.error "transport failure" := rfl

/-- C4 amended: get_vars, put_vars, expand and preview never raise (their
embeddings are exception-free), but sessioninfo raises exactly when the
bridge round trip fails, the local eval of the response fails, or
unpickling fails. -/
theorem sessioninfo_error_iff (resp : BridgeResponse (List (String × String))) :
    (∃ e, sessioninfo resp = Except.error e) ↔
      (resp = Option.none ∨
       (∃ tp, resp = Option.some (tp, Option.none)) ∨
       (∃ tp d msg, resp = Option.some (tp, Option.some d) ∧
          load_pickled d = .raised msg)) := by
  rcases resp with _ | ⟨tp, ed⟩
  · simp [sessioninfo]
  · rcases ed with _ | d
    · simp [sessioninfo]
    · rcases d with c | c | _
      · rcases c with _ | a
        · constructor
          · intro _
            exact Or.inr (Or.inr ⟨tp, PickleData.bytes Option.none,
              "unpickling error", rfl, rfl⟩)
          · intro _
            exact ⟨"unpickling error", rfl⟩
        · simp [sessioninfo, load_pickled]
      · rcases c with _ | a
        · constructor
          · intro _
            exact Or.inr (Or.inr ⟨tp, PickleData.str Option.none,
              "unpickling error", rfl, rfl⟩)
          · intro _
            exact ⟨"unpickling error", rfl⟩
        · simp [sessioninfo, load_pickled]
      · simp [sessioninfo, load_pickled]

end SosPython
